import Mathlib

/-
Shallow embedding of the geo_converter repository (src/geo_converter/geocoder.py
and src/geo_converter/app.py).

The geocoding client (`ReverseGeocoder`) is modelled as a state value
(`GeoState`: cache, hit/miss counters) threaded explicitly through the
operations.  Network I/O is modelled by an oracle `net : ℕ → NetAttempt`
giving the outcome of each attempt; wall-clock sleeps and HTTP requests are
recorded in an event trace (`Event`), so that claims about "no network call,
no delay" and about backoff schedules become statements on the trace.
Python floats are modelled as rationals; Python dicts holding JSON address
objects become structures of `Option String` fields (a missing key is
`none`); the `requests` exception carries its `str()` as a `String`.
-/

namespace GeoConverter

/-- An observable side effect of the client: a `time.sleep(secs)` call or one
HTTP GET issued against the provider. -/
inductive Event where
  | sleep (secs : ℕ)
  | request
deriving DecidableEq

/-- The `address` sub-object of a Nominatim JSON response
(geocoder.py line 78).  Each optional key of the JSON dict is an
`Option String` field; a missing key is `none`. -/
structure Address where
  city : Option String
  town : Option String
  village : Option String
  municipality : Option String
  hamlet : Option String
  state : Option String
  country : Option String
  country_code : Option String
  postcode : Option String
deriving DecidableEq

/-- A parsed successful JSON response body: the top-level `display_name`
and the `address` sub-object (geocoder.py lines 75-78). -/
structure Response where
  display_name : Option String
  address : Address
deriving DecidableEq

/-- Outcome of one network attempt: a parsed 2xx JSON response, or a
`requests.exceptions.RequestException` (network error, timeout, or non-2xx
raised by `raise_for_status`) carrying its stringified message. -/
inductive NetAttempt where
  | ok (resp : Response)
  | fail (msg : String)
deriving DecidableEq

/-- The result dictionary built by `reverse_geocode`
(geocoder.py lines 80-90 and 106-116). -/
structure GeocodeResult where
  latitude : ℚ
  longitude : ℚ
  city : Option String
  state : Option String
  country : Option String
  country_code : Option String
  postcode : Option String
  display_name : Option String
  status : String
deriving DecidableEq

/-- The mutable state of a `ReverseGeocoder` instance (geocoder.py
lines 26-28): the cache dict (as an association list on rounded-coordinate
keys) and the hit/miss counters. -/
structure GeoState where
  cache : List ((ℚ × ℚ) × GeocodeResult)
  cache_hits : ℕ
  cache_misses : ℕ
deriving DecidableEq

/-- A fresh `ReverseGeocoder()`: empty cache, zero counters. -/
def initState : GeoState := ⟨[], 0, 0⟩

/-- Python dict membership/indexing `self.cache[cache_key]`: first entry
with the given key. -/
def cacheLookup (c : List ((ℚ × ℚ) × GeocodeResult)) (k : ℚ × ℚ) :
    Option GeocodeResult :=
  match c with
  | [] => none
  | (k1, v) :: rest => if k1 = k then some v else cacheLookup rest k

/-- Python dict assignment `self.cache[cache_key] = v`: replace the entry
if the key is present, else append it. -/
def cacheInsert (c : List ((ℚ × ℚ) × GeocodeResult)) (k : ℚ × ℚ)
    (v : GeocodeResult) : List ((ℚ × ℚ) × GeocodeResult) :=
  match c with
  | [] => [(k, v)]
  | (k1, v1) :: rest =>
      if k1 = k then (k, v) :: rest else (k1, v1) :: cacheInsert rest k v

/-- Python `round(x, 4)` on the model's rationals: round to 4 decimal
places, as `⌊x * 10000 + 1/2⌋ / 10000`.  (Python's float round breaks
exact ties to even; ties at the 5th decimal never arise in the properties
below.) -/
def round4 (x : ℚ) : ℚ := ((Rat.floor (x * 10000 + 1/2) : ℤ) : ℚ) / 10000

/-- geocoder.py line 44: `cache_key = (round(lat, 4), round(lon, 4))`. -/
def cache_key (lat lon : ℚ) : ℚ × ℚ := (round4 lat, round4 lon)

/-- Python `str.upper()` restricted to case mapping of each character
(sufficient for ASCII country codes). -/
def pyUpper (s : String) : String := String.mk (s.data.map Char.toUpper)

/-- Python `str.lower()` restricted to case mapping of each character
(sufficient for ASCII column names). -/
def pyLower (s : String) : String := String.mk (s.data.map Char.toLower)

/-- Python `str` applied to `last_error`, which is either `None` or a
caught exception. -/
def pyStr : Option String → String
  | none => "None"
  | some m => m

/-- First present value, mirroring the loop over
`city_fields = ['city', 'town', 'village', 'municipality', 'hamlet']`
in `_extract_city` (geocoder.py lines 131-137). -/
def findFirst : List (Option String) → Option String
  | [] => none
  | o :: rest => if o.isSome then o else findFirst rest

/-- geocoder.py `_extract_city`: try city, town, village, municipality,
hamlet in order; first present field wins, else `None`. -/
def _extract_city (a : Address) : Option String :=
  findFirst [a.city, a.town, a.village, a.municipality, a.hamlet]

/-- The success-result dict built at geocoder.py lines 80-90 from a parsed
response.  Note `address.get('country_code', '').upper()`: a missing
`country_code` key yields the empty string, not `None`. -/
def buildResult (lat lon : ℚ) (resp : Response) : GeocodeResult :=
  { latitude := lat
    longitude := lon
    city := _extract_city resp.address
    state := resp.address.state
    country := resp.address.country
    country_code := some (pyUpper (resp.address.country_code.getD ""))
    postcode := resp.address.postcode
    display_name := resp.display_name
    status := "success" }

/-- The error-result dict built at geocoder.py lines 106-116 after all
retries fail: all location fields `None`, status `f'error: {str(last_error)}'`. -/
def errorResult (lat lon : ℚ) (lastError : Option String) : GeocodeResult :=
  { latitude := lat
    longitude := lon
    city := none
    state := none
    country := none
    country_code := none
    postcode := none
    display_name := none
    status := "error: " ++ pyStr lastError }

/-- Outcome of the retry `for` loop (geocoder.py lines 67-103): either a
parsed response obtained on some attempt, or exhaustion with the last
caught error; in both cases with the ordered trace of sleeps and requests
the loop performed. -/
inductive LoopOutcome where
  | success (resp : Response) (events : List Event)
  | exhausted (lastError : Option String) (events : List Event)
deriving DecidableEq

/-- The body of the retry loop `for attempt in range(max_retries)` of
geocoder.py lines 67-103, with the number of remaining iterations
`fuel = max_retries - attempt` made explicit for structural recursion
(the loop runs while `attempt < max_retries`, i.e. while `fuel > 0`):
each iteration sleeps 1 second, issues the GET, and on a request failure
with `attempt < max_retries - 1` sleeps `2 ^ (attempt + 1)` seconds
before the next iteration. -/
def attemptLoopAux (net : ℕ → NetAttempt) (max_retries : ℕ) :
    ℕ → ℕ → Option String → LoopOutcome
  | 0, _, lastError => LoopOutcome.exhausted lastError []
  | fuel + 1, attempt, _ =>
      match net attempt with
      | NetAttempt.ok resp =>
          LoopOutcome.success resp [Event.sleep 1, Event.request]
      | NetAttempt.fail msg =>
          if attempt < max_retries - 1 then
            match attemptLoopAux net max_retries fuel (attempt + 1) (some msg) with
            | LoopOutcome.success r tr =>
                LoopOutcome.success r
                  ([Event.sleep 1, Event.request, Event.sleep (2 ^ (attempt + 1))] ++ tr)
            | LoopOutcome.exhausted le tr =>
                LoopOutcome.exhausted le
                  ([Event.sleep 1, Event.request, Event.sleep (2 ^ (attempt + 1))] ++ tr)
          else
            LoopOutcome.exhausted (some msg) [Event.sleep 1, Event.request]

/-- The retry loop of geocoder.py lines 64-103, entered at `attempt = 0`
with `last_error = None`. -/
def attemptLoop (net : ℕ → NetAttempt) (max_retries attempt : ℕ)
    (lastError : Option String) : LoopOutcome :=
  attemptLoopAux net max_retries (max_retries - attempt) attempt lastError

/-- Return value of one `reverse_geocode` call: the result dict, the
state of the geocoder after the call, and the ordered trace of sleeps and
requests the call performed. -/
structure CallOut where
  result : GeocodeResult
  st : GeoState
  events : List Event
deriving DecidableEq

/-- geocoder.py `reverse_geocode(lat, lon, max_retries)` (lines 30-118):
on a cache hit return a copy of the cached template rehydrated with the
call's own lat/lon, bump the hit counter, with no sleep and no request;
on a miss bump the miss counter and run the retry loop, caching a copy of
the result on success and caching nothing on exhaustion. -/
def reverse_geocode (g : GeoState) (net : ℕ → NetAttempt) (lat lon : ℚ)
    (max_retries : ℕ) : CallOut :=
  let cKey := cache_key lat lon
  match cacheLookup g.cache cKey with
  | some tmpl =>
      { result := { tmpl with latitude := lat, longitude := lon }
        st := { g with cache_hits := g.cache_hits + 1 }
        events := [] }
  | none =>
      let g1 : GeoState := { g with cache_misses := g.cache_misses + 1 }
      match attemptLoop net max_retries 0 none with
      | LoopOutcome.success resp tr =>
          let result := buildResult lat lon resp
          { result := result
            st := { g1 with cache := cacheInsert g1.cache cKey result }
            events := tr }
      | LoopOutcome.exhausted le tr =>
          { result := errorResult lat lon le
            st := g1
            events := tr }

/-- Cache statistics returned by `get_cache_stats` (geocoder.py
lines 139-151); the call reads the state and modifies nothing. -/
structure CacheStats where
  hits : ℕ
  misses : ℕ
  size : ℕ
  total_requests : ℕ
deriving DecidableEq

/-- geocoder.py `get_cache_stats`: read-only snapshot of the counters and
the cache size. -/
def get_cache_stats (g : GeoState) : CacheStats :=
  { hits := g.cache_hits
    misses := g.cache_misses
    size := g.cache.length
    total_requests := g.cache_hits + g.cache_misses }

/-- geocoder.py `clear_cache` (lines 153-157): empty the cache and reset
both counters to zero. -/
def clear_cache (_g : GeoState) : GeoState := ⟨[], 0, 0⟩

/-- One input row of the uploaded table: the numeric values read from the
latitude and longitude columns, plus the row's remaining original cells
(column name, cell text). -/
structure InputRow where
  lat : ℚ
  lon : ℚ
  extra : List (String × String)
deriving DecidableEq

/-- The result columns appended to an output row: the fields of a
`GeocodeResult` after `results_df.drop(['latitude', 'longitude'], axis=1)`
(app.py line 157, geocoder.py line 201). -/
structure PlaceFields where
  city : Option String
  state : Option String
  country : Option String
  country_code : Option String
  postcode : Option String
  display_name : Option String
  status : String
deriving DecidableEq

/-- Drop the duplicate latitude/longitude columns from a result row. -/
def dropLatLon (r : GeocodeResult) : PlaceFields :=
  { city := r.city
    state := r.state
    country := r.country
    country_code := r.country_code
    postcode := r.postcode
    display_name := r.display_name
    status := r.status }

/-- One auto-save performed by app.py lines 154-158: the number of rows
processed when the file was written, and the written table (each output
row is the original input row paired with its result columns). -/
structure Snapshot where
  processed : ℕ
  table : List (InputRow × PlaceFields)
deriving DecidableEq

/-- The intermediate table written by a snapshot at `processed` rows:
`pd.concat([df.iloc[:processed], results_df.drop(['latitude','longitude'])], axis=1)`
(app.py line 157), where `results` holds the first `processed` results. -/
def snapshot_table (df : List InputRow) (results : List GeocodeResult)
    (processed : ℕ) : List (InputRow × PlaceFields) :=
  (df.take processed).zip (results.map dropLatLon)

/-- Accumulated outcome of the per-row loop of `process_geocoding`
(app.py lines 128-159): the results list, the geocoder state, the event
trace, and the snapshots written, in chronological order. -/
structure LoopOut where
  results : List GeocodeResult
  st : GeoState
  events : List Event
  snaps : List Snapshot
deriving DecidableEq

/-- The `for idx, row in df.iterrows()` loop of app.py lines 128-159.
`net` gives each row index its own network oracle (a cache hit consumes
none of it); `processed` counts rows completed before this iteration;
`acc` is the running `results` list.  After geocoding a row, when
`processed % 50 == 0 or processed == total_rows` the partial output is
written (overwriting the previous snapshot file). -/
def pg_loop (net : ℕ → ℕ → NetAttempt) (df : List InputRow) (total : ℕ) :
    List InputRow → ℕ → GeoState → List GeocodeResult → LoopOut
  | [], _, g, acc => ⟨acc, g, [], []⟩
  | row :: rest, processedBefore, g, acc =>
      let c := reverse_geocode g (net processedBefore) row.lat row.lon 3
      let acc1 := acc ++ [c.result]
      let processed := processedBefore + 1
      let snapsHere : List Snapshot :=
        if processed % 50 = 0 ∨ processed = total then
          [⟨processed, snapshot_table df acc1 processed⟩]
        else []
      let recOut := pg_loop net df total rest processed c.st acc1
      ⟨recOut.results, recOut.st, c.events ++ recOut.events,
        snapsHere ++ recOut.snaps⟩

/-- Return value of one `process_geocoding` run (app.py lines 94-205):
the final output table, the results list, the final geocoder state, the
event trace, every write to the output file in order (the in-loop
snapshots and the final write, each overwriting its predecessor), and the
computed `successful_count`. -/
structure BatchOut where
  output : List (InputRow × PlaceFields)
  results : List GeocodeResult
  st : GeoState
  events : List Event
  snaps : List Snapshot
  successful_count : ℕ
deriving DecidableEq

/-- app.py `process_geocoding` on an already-validated table: run the
per-row loop over all rows (with `batch_save_interval = 50`), then build
the final output table `pd.concat([df, results_df.drop([...])], axis=1)`
and write it (app.py lines 161-168), and count the rows whose status is
`'success'` (line 175). -/
def process_geocoding (g : GeoState) (net : ℕ → ℕ → NetAttempt)
    (df : List InputRow) : BatchOut :=
  let L := pg_loop net df df.length df 0 g []
  let finalTable := df.zip (L.results.map dropLatLon)
  { output := finalTable
    results := L.results
    st := L.st
    events := L.events
    snaps := L.snaps ++ [⟨df.length, finalTable⟩]
    successful_count := (L.results.filter (fun r => r.status = "success")).length }

/-- Return value of one `process_csv` run (geocoder.py lines 159-206):
the written output table, the final geocoder state, the event trace, and
the returned `(successful_count, total_count)` pair. -/
structure CsvOut where
  output : List (InputRow × PlaceFields)
  results : List GeocodeResult
  st : GeoState
  events : List Event
  successful_count : ℕ
  total_count : ℕ
deriving DecidableEq

/-- The `for idx, row in df.iterrows()` loop of geocoder.py lines 187-195:
like the app loop but with no snapshotting. -/
def csv_loop (net : ℕ → ℕ → NetAttempt) :
    List InputRow → ℕ → GeoState → List GeocodeResult →
      List GeocodeResult × GeoState × List Event
  | [], _, g, acc => (acc, g, [])
  | row :: rest, idx, g, acc =>
      let c := reverse_geocode g (net idx) row.lat row.lon 3
      let recOut := csv_loop net rest (idx + 1) c.st (acc ++ [c.result])
      (recOut.1, recOut.2.1, c.events ++ recOut.2.2)

/-- geocoder.py `process_csv` after its column validation has passed:
geocode every row in order, build
`pd.concat([df, results_df.drop(['latitude','longitude'], axis=1)], axis=1)`,
and return the success and total counts. -/
def process_csv (g : GeoState) (net : ℕ → ℕ → NetAttempt)
    (df : List InputRow) : CsvOut :=
  let L := csv_loop net df 0 g []
  { output := df.zip (L.1.map dropLatLon)
    results := L.1
    st := L.2.1
    events := L.2.2
    successful_count := (L.1.filter (fun r => r.status = "success")).length
    total_count := df.length }

/-- The uploaded table as seen by app.py `main`: its column names and its
rows. -/
structure Frame where
  columns : List String
  rows : List InputRow
deriving DecidableEq

/-- app.py lines 63-68: `column_map = {col.lower(): col for col in df.columns}`
then `column_map.get(name.lower())`.  A dict comprehension keeps the last
column whose lowercasing matches, so this is the last case-insensitive
match. -/
def find_column (columns : List String) (name : String) : Option String :=
  (columns.filter (fun col => pyLower col = pyLower name)).getLast?

/-- The validation error surfaced by app.py lines 71-74: the `st.error`
text followed by the `st.info` text listing the available columns. -/
def columnsError (latName lonName : String) (columns : List String) : String :=
  "Columns '" ++ latName ++ "' and/or '" ++ lonName ++
    "' not found in CSV file! Available columns: " ++
    String.intercalate ", " columns

/-- Outcome of the app's upload-and-geocode flow: either a validation
error (with the message shown to the user) or a completed batch; plus the
events performed and the geocoder state afterwards. -/
structure MainOut where
  error : Option String
  batch : Option BatchOut
  st : GeoState
  events : List Event
deriving DecidableEq

/-- app.py `main` from column resolution onward (lines 63-87): resolve the
configured latitude/longitude column names case-insensitively; if either
is missing, report the error and return before any geocoding; otherwise
run `process_geocoding`. -/
def main_flow (g : GeoState) (net : ℕ → ℕ → NetAttempt) (f : Frame)
    (latName lonName : String) : MainOut :=
  match find_column f.columns latName, find_column f.columns lonName with
  | some _, some _ =>
      let b := process_geocoding g net f.rows
      { error := none, batch := some b, st := b.st, events := b.events }
  | _, _ =>
      { error := some (columnsError latName lonName f.columns)
        batch := none, st := g, events := [] }

/-- Concrete fixture: a parsed Nominatim response for Paris. -/
def respParis : Response :=
  ⟨some "Paris, France",
   ⟨some "Paris", none, none, none, none, none, some "France", some "fr",
    some "75001"⟩⟩

/-- Concrete fixture: a network that always answers with `respParis`. -/
def netParis : ℕ → NetAttempt := fun _ => NetAttempt.ok respParis

/-- Concrete fixture: a network on which every request fails. -/
def netDown : ℕ → NetAttempt := fun _ => NetAttempt.fail "down"

/-- Concrete fixture: a parsed response whose address object has no
`country_code` key. -/
def respNoCountryCode : Response :=
  ⟨some "Somewhere", ⟨some "Somewhere", none, none, none, none, none, none,
    none, none⟩⟩

/-- Concrete fixture: a per-row network on which every request fails. -/
def netBatchDown : ℕ → ℕ → NetAttempt := fun _ _ => NetAttempt.fail "down"

/-- Concrete fixture: a per-row network that always answers `respParis`. -/
def netBatchParis : ℕ → ℕ → NetAttempt := fun _ _ => NetAttempt.ok respParis

/-- Concrete fixture: a single input row at coordinate (1, 2). -/
def rowOne : InputRow := ⟨1, 2, [("id", "a")]⟩

/-- Concrete fixture: an address with `town` and `village` but no `city`. -/
def addrTownVillage : Address :=
  ⟨none, some "Springfield", some "Shelbyville", none, none, none, none,
   none, none⟩

/-- Concrete fixture: the empty address object. -/
def addrEmpty : Address :=
  ⟨none, none, none, none, none, none, none, none, none⟩

/-- Invariant of the client's cache: every stored template has status
`'success'` (only the success path at geocoder.py line 93 ever stores). -/
def cacheInv (c : List ((ℚ × ℚ) × GeocodeResult)) : Prop :=
  ∀ kv ∈ c, kv.2.status = "success"

/-- Event trace carried by a loop outcome. -/
def LoopOutcome.trace : LoopOutcome → List Event
  | LoopOutcome.success _ tr => tr
  | LoopOutcome.exhausted _ tr => tr

/- Helper lemmas. -/

lemma cacheLookup_cacheInsert_self (c : List ((ℚ × ℚ) × GeocodeResult))
    (k : ℚ × ℚ) (v : GeocodeResult) :
    cacheLookup (cacheInsert c k v) k = some v := by
  induction c with
  | nil => simp [cacheInsert, cacheLookup]
  | cons hd tl ih =>
      obtain ⟨k1, v1⟩ := hd
      by_cases h : k1 = k <;> simp [cacheInsert, cacheLookup, h, ih]

lemma mem_cacheInsert (c : List ((ℚ × ℚ) × GeocodeResult)) (k : ℚ × ℚ)
    (v : GeocodeResult) (kv : (ℚ × ℚ) × GeocodeResult)
    (hmem : kv ∈ cacheInsert c k v) : kv = (k, v) ∨ kv ∈ c := by
  induction c with
  | nil => simpa [cacheInsert] using hmem
  | cons hd tl ih =>
      obtain ⟨k1, v1⟩ := hd
      by_cases h : k1 = k
      · simp only [cacheInsert, if_pos h, List.mem_cons] at hmem
        rcases hmem with h1 | h1
        · exact Or.inl h1
        · exact Or.inr (List.mem_cons_of_mem _ h1)
      · simp only [cacheInsert, if_neg h, List.mem_cons] at hmem
        rcases hmem with h1 | h1
        · exact Or.inr (by simp [h1])
        · rcases ih h1 with h2 | h2
          · exact Or.inl h2
          · exact Or.inr (List.mem_cons_of_mem _ h2)

lemma cacheLookup_mem (c : List ((ℚ × ℚ) × GeocodeResult)) (k : ℚ × ℚ)
    (v : GeocodeResult) (h : cacheLookup c k = some v) : (k, v) ∈ c := by
  induction c with
  | nil => simp [cacheLookup] at h
  | cons hd tl ih =>
      obtain ⟨k1, v1⟩ := hd
      by_cases hk : k1 = k
      · simp only [cacheLookup, if_pos hk] at h
        subst hk
        injection h with h
        simp [h]
      · simp only [cacheLookup, if_neg hk] at h
        exact List.mem_cons_of_mem _ (ih h)

lemma string_length_zero {s : String} (h : s.length = 0) : s = "" := by
  cases s with
  | mk data => simp [String.length] at h; subst h; rfl

lemma error_ne_success (s : String) : "error: " ++ s ≠ "success" := by
  intro h
  have hl := congrArg String.length h
  rw [String.length_append] at hl
  have h7 : ("error: ").length = 7 := by decide
  have h8 : ("success").length = 7 := by decide
  have h0 : s.length = 0 := by omega
  rw [string_length_zero h0] at h
  exact absurd h (by decide)

lemma errorResult_status_ne_success (lat lon : ℚ) (le : Option String) :
    (errorResult lat lon le).status ≠ "success" :=
  error_ne_success (pyStr le)

lemma request_mem_attemptLoopAux (net : ℕ → NetAttempt) (mr fuel attempt : ℕ)
    (le : Option String) (hf : 0 < fuel) :
    Event.request ∈ (attemptLoopAux net mr fuel attempt le).trace := by
  cases fuel with
  | zero => omega
  | succ f =>
      cases hn : net attempt with
      | ok resp => simp [attemptLoopAux, hn, LoopOutcome.trace]
      | fail msg =>
          by_cases hlt : attempt < mr - 1
          · cases hrec : attemptLoopAux net mr f (attempt + 1) (some msg) with
            | success r tr => simp [attemptLoopAux, hn, hlt, hrec, LoopOutcome.trace]
            | exhausted e tr => simp [attemptLoopAux, hn, hlt, hrec, LoopOutcome.trace]
          · simp [attemptLoopAux, hn, hlt, LoopOutcome.trace]

lemma request_mem_attemptLoop (net : ℕ → NetAttempt) (mr : ℕ) (hmr : 0 < mr) :
    Event.request ∈ (attemptLoop net mr 0 none).trace := by
  have : 0 < mr - 0 := by omega
  exact request_mem_attemptLoopAux net mr (mr - 0) 0 none this

lemma reverse_geocode_hit (g : GeoState) (net : ℕ → NetAttempt) (lat lon : ℚ)
    (n : ℕ) (tmpl : GeocodeResult)
    (h : cacheLookup g.cache (cache_key lat lon) = some tmpl) :
    reverse_geocode g net lat lon n =
      ⟨{ tmpl with latitude := lat, longitude := lon },
       { g with cache_hits := g.cache_hits + 1 }, []⟩ := by
  simp [reverse_geocode, h]

lemma reverse_geocode_miss_success (g : GeoState) (net : ℕ → NetAttempt)
    (lat lon : ℚ) (n : ℕ) (resp : Response) (tr : List Event)
    (h : cacheLookup g.cache (cache_key lat lon) = none)
    (ho : attemptLoop net n 0 none = LoopOutcome.success resp tr) :
    reverse_geocode g net lat lon n =
      ⟨buildResult lat lon resp,
       ⟨cacheInsert g.cache (cache_key lat lon) (buildResult lat lon resp),
        g.cache_hits, g.cache_misses + 1⟩, tr⟩ := by
  simp [reverse_geocode, h, ho]

lemma reverse_geocode_miss_exhausted (g : GeoState) (net : ℕ → NetAttempt)
    (lat lon : ℚ) (n : ℕ) (le : Option String) (tr : List Event)
    (h : cacheLookup g.cache (cache_key lat lon) = none)
    (ho : attemptLoop net n 0 none = LoopOutcome.exhausted le tr) :
    reverse_geocode g net lat lon n =
      ⟨errorResult lat lon le, ⟨g.cache, g.cache_hits, g.cache_misses + 1⟩, tr⟩ := by
  simp [reverse_geocode, h, ho]

lemma reverse_geocode_miss_counters (g : GeoState) (net : ℕ → NetAttempt)
    (lat lon : ℚ) (n : ℕ)
    (h : cacheLookup g.cache (cache_key lat lon) = none) :
    (reverse_geocode g net lat lon n).st.cache_misses = g.cache_misses + 1 ∧
    (reverse_geocode g net lat lon n).events = (attemptLoop net n 0 none).trace := by
  cases ho : attemptLoop net n 0 none with
  | success resp tr =>
      rw [reverse_geocode_miss_success g net lat lon n resp tr h ho]
      simp [LoopOutcome.trace]
  | exhausted le tr =>
      rw [reverse_geocode_miss_exhausted g net lat lon n le tr h ho]
      simp [LoopOutcome.trace]

/-- C1: for every pair of calls to `reverse_geocode` whose coordinates round
identically at 4 decimal places, where the first call succeeded, the second
call is a cache hit: it performs no network request and no sleep, increments
the hit counter by exactly 1 (and leaves the miss counter unchanged), and
returns a result whose latitude and longitude equal the second call's own
unrounded inputs while every place field (city, state, country, country_code,
postcode, display_name, status) equals the first result's. -/
theorem cache_hit_on_second_call (g : GeoState) (net1 net2 : ℕ → NetAttempt)
    (lat1 lon1 lat2 lon2 : ℚ) (n1 n2 : ℕ)
    (hkey : cache_key lat1 lon1 = cache_key lat2 lon2)
    (hsucc : (reverse_geocode g net1 lat1 lon1 n1).result.status = "success") :
    (reverse_geocode (reverse_geocode g net1 lat1 lon1 n1).st net2 lat2 lon2 n2).events = [] ∧
    (reverse_geocode (reverse_geocode g net1 lat1 lon1 n1).st net2 lat2 lon2 n2).st.cache_hits =
      (reverse_geocode g net1 lat1 lon1 n1).st.cache_hits + 1 ∧
    (reverse_geocode (reverse_geocode g net1 lat1 lon1 n1).st net2 lat2 lon2 n2).st.cache_misses =
      (reverse_geocode g net1 lat1 lon1 n1).st.cache_misses ∧
    (reverse_geocode (reverse_geocode g net1 lat1 lon1 n1).st net2 lat2 lon2 n2).result.latitude = lat2 ∧
    (reverse_geocode (reverse_geocode g net1 lat1 lon1 n1).st net2 lat2 lon2 n2).result.longitude = lon2 ∧
    dropLatLon (reverse_geocode (reverse_geocode g net1 lat1 lon1 n1).st net2 lat2 lon2 n2).result =
      dropLatLon (reverse_geocode g net1 lat1 lon1 n1).result := by
  cases h1 : cacheLookup g.cache (cache_key lat1 lon1) with
  | some tmpl =>
      have e1 := reverse_geocode_hit g net1 lat1 lon1 n1 tmpl h1
      have h2 : cacheLookup (reverse_geocode g net1 lat1 lon1 n1).st.cache
          (cache_key lat2 lon2) = some tmpl := by
        rw [e1, ← hkey]
        exact h1
      have e2 := reverse_geocode_hit (reverse_geocode g net1 lat1 lon1 n1).st
        net2 lat2 lon2 n2 tmpl h2
      rw [e2, e1]
      simp [dropLatLon]
  | none =>
      cases ho : attemptLoop net1 n1 0 none with
      | success resp tr =>
          have e1 := reverse_geocode_miss_success g net1 lat1 lon1 n1 resp tr h1 ho
          have h2 : cacheLookup (reverse_geocode g net1 lat1 lon1 n1).st.cache
              (cache_key lat2 lon2) = some (buildResult lat1 lon1 resp) := by
            rw [e1, ← hkey]
            exact cacheLookup_cacheInsert_self g.cache (cache_key lat1 lon1)
              (buildResult lat1 lon1 resp)
          have e2 := reverse_geocode_hit (reverse_geocode g net1 lat1 lon1 n1).st
            net2 lat2 lon2 n2 (buildResult lat1 lon1 resp) h2
          rw [e2, e1]
          simp [dropLatLon, buildResult]
      | exhausted le tr =>
          have e1 := reverse_geocode_miss_exhausted g net1 lat1 lon1 n1 le tr h1 ho
          rw [e1] at hsucc
          exact absurd hsucc (errorResult_status_ne_success lat1 lon1 le)

/-- C1 witness: a concrete successful call followed by a call with the same
coordinates is a cache hit with all the properties above. -/
theorem cache_hit_on_second_call_witness :
    cache_key 1 2 = cache_key 1 2 ∧
    (reverse_geocode initState netParis 1 2 3).result.status = "success" ∧
    ((reverse_geocode (reverse_geocode initState netParis 1 2 3).st netDown 1 2 3).events = [] ∧
     (reverse_geocode (reverse_geocode initState netParis 1 2 3).st netDown 1 2 3).st.cache_hits =
       (reverse_geocode initState netParis 1 2 3).st.cache_hits + 1 ∧
     (reverse_geocode (reverse_geocode initState netParis 1 2 3).st netDown 1 2 3).st.cache_misses =
       (reverse_geocode initState netParis 1 2 3).st.cache_misses ∧
     (reverse_geocode (reverse_geocode initState netParis 1 2 3).st netDown 1 2 3).result.latitude = 1 ∧
     (reverse_geocode (reverse_geocode initState netParis 1 2 3).st netDown 1 2 3).result.longitude = 2 ∧
     dropLatLon (reverse_geocode (reverse_geocode initState netParis 1 2 3).st netDown 1 2 3).result =
       dropLatLon (reverse_geocode initState netParis 1 2 3).result) :=
  ⟨rfl, rfl,
   cache_hit_on_second_call initState netParis netDown 1 2 1 2 3 3 rfl rfl⟩

/-- C2: a `reverse_geocode` call that returns a result whose status begins
with `error:` leaves the cache unchanged (no entry is stored under the
rounded key), so a subsequent call with a cache-equivalent coordinate
increments the miss counter by 1 and, whenever at least one retry is
allowed, issues a network request instead of reusing the failure.  (The
hypothesis `cacheInv` states that cached templates all have status
`success`, which every reachable state satisfies; see the C10 theorem.) -/
theorem error_result_not_cached (g : GeoState) (net1 : ℕ → NetAttempt)
    (lat lon : ℚ) (n1 : ℕ) (hinv : cacheInv g.cache) (rest : String)
    (herr : (reverse_geocode g net1 lat lon n1).result.status = "error: " ++ rest) :
    (reverse_geocode g net1 lat lon n1).st.cache = g.cache ∧
    ∀ net2 : ℕ → NetAttempt, ∀ lat2 lon2 : ℚ, ∀ n2 : ℕ,
      cache_key lat lon = cache_key lat2 lon2 →
      (reverse_geocode (reverse_geocode g net1 lat lon n1).st net2 lat2 lon2 n2).st.cache_misses =
        (reverse_geocode g net1 lat lon n1).st.cache_misses + 1 ∧
      (0 < n2 →
        Event.request ∈
          (reverse_geocode (reverse_geocode g net1 lat lon n1).st net2 lat2 lon2 n2).events) := by
  cases h1 : cacheLookup g.cache (cache_key lat lon) with
  | some tmpl =>
      have hts : tmpl.status = "success" :=
        hinv (cache_key lat lon, tmpl) (cacheLookup_mem g.cache _ tmpl h1)
      have e1 := reverse_geocode_hit g net1 lat lon n1 tmpl h1
      rw [e1] at herr
      simp only at herr
      rw [hts] at herr
      exact absurd herr.symm (error_ne_success rest)
  | none =>
      cases ho : attemptLoop net1 n1 0 none with
      | success resp tr =>
          have e1 := reverse_geocode_miss_success g net1 lat lon n1 resp tr h1 ho
          rw [e1] at herr
          simp only [buildResult] at herr
          exact absurd herr.symm (error_ne_success rest)
      | exhausted le tr =>
          have e1 := reverse_geocode_miss_exhausted g net1 lat lon n1 le tr h1 ho
          constructor
          · rw [e1]
          · intro net2 lat2 lon2 n2 hkey
            have h2 : cacheLookup (reverse_geocode g net1 lat lon n1).st.cache
                (cache_key lat2 lon2) = none := by
              rw [e1, ← hkey]
              exact h1
            obtain ⟨hm, hev⟩ := reverse_geocode_miss_counters
              (reverse_geocode g net1 lat lon n1).st net2 lat2 lon2 n2 h2
            refine ⟨hm, fun hn2 => ?_⟩
            rw [hev]
            exact request_mem_attemptLoop net2 n2 hn2

/-- C2 witness: after a concrete failed call on an empty-cache state, the
repeat call with the same coordinate is a miss that issues a request. -/
theorem error_result_not_cached_witness :
    cacheInv initState.cache ∧
    (reverse_geocode initState netDown 1 2 3).result.status = "error: " ++ "down" ∧
    ((reverse_geocode initState netDown 1 2 3).st.cache = initState.cache ∧
     (reverse_geocode (reverse_geocode initState netDown 1 2 3).st netDown 1 2 3).st.cache_misses =
       (reverse_geocode initState netDown 1 2 3).st.cache_misses + 1 ∧
     Event.request ∈
       (reverse_geocode (reverse_geocode initState netDown 1 2 3).st netDown 1 2 3).events) := by
  have hinv : cacheInv initState.cache := by
    intro kv hkv
    simp [initState] at hkv
  have herr : (reverse_geocode initState netDown 1 2 3).result.status = "error: " ++ "down" := rfl
  obtain ⟨hc, hrest⟩ := error_result_not_cached initState netDown 1 2 3 hinv "down" herr
  obtain ⟨hm, hreq⟩ := hrest netDown 1 2 3 rfl
  exact ⟨hinv, herr, hc, hm, hreq (by omega)⟩

/-- C9: calling `reverse_geocode` with `max_retries = 0` on an uncached
coordinate never runs the retry loop body: no network request and no sleep
occur, the miss counter still increments by 1 (cache and hit counter
unchanged), and the call returns a result with all location fields null and
status exactly `error: None`, the stringification of the never-assigned
`last_error`. -/
theorem zero_retries_error_none (g : GeoState) (net : ℕ → NetAttempt)
    (lat lon : ℚ)
    (h : cacheLookup g.cache (cache_key lat lon) = none) :
    (reverse_geocode g net lat lon 0).events = [] ∧
    (reverse_geocode g net lat lon 0).st =
      ⟨g.cache, g.cache_hits, g.cache_misses + 1⟩ ∧
    (reverse_geocode g net lat lon 0).result = errorResult lat lon none ∧
    (reverse_geocode g net lat lon 0).result.status = "error: None" ∧
    (reverse_geocode g net lat lon 0).result.city = none ∧
    (reverse_geocode g net lat lon 0).result.state = none ∧
    (reverse_geocode g net lat lon 0).result.country = none ∧
    (reverse_geocode g net lat lon 0).result.country_code = none ∧
    (reverse_geocode g net lat lon 0).result.postcode = none ∧
    (reverse_geocode g net lat lon 0).result.display_name = none := by
  have ho : attemptLoop net 0 0 none = LoopOutcome.exhausted none [] := rfl
  have e1 := reverse_geocode_miss_exhausted g net lat lon 0 none [] h ho
  rw [e1]
  simp [errorResult, pyStr]

/-- C9 witness: the zero-retry behavior at a concrete uncached input. -/
theorem zero_retries_error_none_witness :
    cacheLookup initState.cache (cache_key 1 2) = none ∧
    ((reverse_geocode initState netParis 1 2 0).events = [] ∧
     (reverse_geocode initState netParis 1 2 0).st =
       ⟨initState.cache, initState.cache_hits, initState.cache_misses + 1⟩ ∧
     (reverse_geocode initState netParis 1 2 0).result = errorResult 1 2 none ∧
     (reverse_geocode initState netParis 1 2 0).result.status = "error: None" ∧
     (reverse_geocode initState netParis 1 2 0).result.city = none ∧
     (reverse_geocode initState netParis 1 2 0).result.state = none ∧
     (reverse_geocode initState netParis 1 2 0).result.country = none ∧
     (reverse_geocode initState netParis 1 2 0).result.country_code = none ∧
     (reverse_geocode initState netParis 1 2 0).result.postcode = none ∧
     (reverse_geocode initState netParis 1 2 0).result.display_name = none) :=
  ⟨rfl, zero_retries_error_none initState netParis 1 2 rfl⟩

/-- C3: with `max_retries = 3` on an uncached coordinate, when all three
attempts fail, exactly 3 requests are issued with exactly 2 inter-attempt
backoff waits of 2 then 4 seconds (the full event trace is rate-limit
sleep, request, backoff 2s, rate-limit sleep, request, backoff 4s,
rate-limit sleep, request), and the returned result is the error result for
the stringified last failure: status `error: ` followed by the third
attempt's message, all place fields null. -/
theorem three_failed_retries (g : GeoState) (net : ℕ → NetAttempt)
    (lat lon : ℚ) (m0 m1 m2 : String)
    (h : cacheLookup g.cache (cache_key lat lon) = none)
    (h0 : net 0 = NetAttempt.fail m0) (h1 : net 1 = NetAttempt.fail m1)
    (h2 : net 2 = NetAttempt.fail m2) :
    (reverse_geocode g net lat lon 3).events =
      [Event.sleep 1, Event.request, Event.sleep 2,
       Event.sleep 1, Event.request, Event.sleep 4,
       Event.sleep 1, Event.request] ∧
    ((reverse_geocode g net lat lon 3).events.filter
        (fun e => e = Event.request)).length = 3 ∧
    ((reverse_geocode g net lat lon 3).events.filter
        (fun e => e = Event.sleep 2 ∨ e = Event.sleep 4)) =
      [Event.sleep 2, Event.sleep 4] ∧
    (reverse_geocode g net lat lon 3).result = errorResult lat lon (some m2) ∧
    (reverse_geocode g net lat lon 3).result.status = "error: " ++ m2 ∧
    (reverse_geocode g net lat lon 3).result.city = none ∧
    (reverse_geocode g net lat lon 3).result.state = none ∧
    (reverse_geocode g net lat lon 3).result.country = none ∧
    (reverse_geocode g net lat lon 3).result.country_code = none ∧
    (reverse_geocode g net lat lon 3).result.postcode = none ∧
    (reverse_geocode g net lat lon 3).result.display_name = none := by
  have ho : attemptLoop net 3 0 none =
      LoopOutcome.exhausted (some m2)
        [Event.sleep 1, Event.request, Event.sleep 2,
         Event.sleep 1, Event.request, Event.sleep 4,
         Event.sleep 1, Event.request] := by
    simp [attemptLoop, attemptLoopAux, h0, h1, h2]
  have e1 := reverse_geocode_miss_exhausted g net lat lon 3 (some m2) _ h ho
  rw [e1]
  refine ⟨rfl, by simp [List.filter], by simp [List.filter], rfl, rfl, rfl, rfl,
    rfl, rfl, rfl, rfl⟩

/-- C3 witness: the three-failure schedule on a concrete dead network. -/
theorem three_failed_retries_witness :
    cacheLookup initState.cache (cache_key 1 2) = none ∧
    netDown 0 = NetAttempt.fail "down" ∧
    ((reverse_geocode initState netDown 1 2 3).events =
      [Event.sleep 1, Event.request, Event.sleep 2,
       Event.sleep 1, Event.request, Event.sleep 4,
       Event.sleep 1, Event.request] ∧
     (reverse_geocode initState netDown 1 2 3).result.status = "error: " ++ "down") := by
  obtain ⟨hev, _, _, _, hst, _⟩ :=
    three_failed_retries initState netDown 1 2 "down" "down" "down" rfl rfl rfl rfl
  exact ⟨rfl, rfl, hev, hst⟩

/-- C4 counterexample: the claim that an absent `country_code` key yields a
null `country_code` is false.  Geocoder.py line 86 reads
`address.get('country_code', '').upper()`, so on a successful response whose
address has no `country_code` key the returned `country_code` is the empty
string, not null. -/
theorem country_code_not_null_counterexample :
    (reverse_geocode initState (fun _ => NetAttempt.ok respNoCountryCode)
        1 2 3).result.status = "success" ∧
    respNoCountryCode.address.country_code = none ∧
    (reverse_geocode initState (fun _ => NetAttempt.ok respNoCountryCode)
        1 2 3).result.country_code = some "" ∧
    (reverse_geocode initState (fun _ => NetAttempt.ok respNoCountryCode)
        1 2 3).result.country_code ≠ none := by
  refine ⟨rfl, rfl, rfl, ?_⟩
  intro hcon
  rw [show (reverse_geocode initState (fun _ => NetAttempt.ok respNoCountryCode)
      1 2 3).result.country_code = some "" from rfl] at hcon
  exact Option.noConfusion hcon

/-- C4 amended: on a successful response, every result field other than
`country_code` is the corresponding (possibly absent, hence null) field of
the response; `country_code` is instead the uppercased value of the key
when present and the empty string when the key is absent. -/
theorem missing_fields_null_except_country_code (g : GeoState)
    (net : ℕ → NetAttempt) (lat lon : ℚ) (n : ℕ) (resp : Response)
    (h : cacheLookup g.cache (cache_key lat lon) = none)
    (hn : 0 < n) (hresp : net 0 = NetAttempt.ok resp) :
    (reverse_geocode g net lat lon n).result.status = "success" ∧
    (reverse_geocode g net lat lon n).result.state = resp.address.state ∧
    (reverse_geocode g net lat lon n).result.country = resp.address.country ∧
    (reverse_geocode g net lat lon n).result.postcode = resp.address.postcode ∧
    (reverse_geocode g net lat lon n).result.display_name = resp.display_name ∧
    (reverse_geocode g net lat lon n).result.city = _extract_city resp.address ∧
    (resp.address.country_code = none →
      (reverse_geocode g net lat lon n).result.country_code = some "") ∧
    (∀ s : String, resp.address.country_code = some s →
      (reverse_geocode g net lat lon n).result.country_code = some (pyUpper s)) := by
  have ho : attemptLoop net n 0 none =
      LoopOutcome.success resp [Event.sleep 1, Event.request] := by
    cases n with
    | zero => omega
    | succ k => simp [attemptLoop, attemptLoopAux, hresp]
  have e1 := reverse_geocode_miss_success g net lat lon n resp _ h ho
  rw [e1]
  refine ⟨rfl, rfl, rfl, rfl, rfl, rfl, ?_, ?_⟩
  · intro hcc
    simp [buildResult, hcc]
    decide
  · intro s hcc
    simp [buildResult, hcc]

/-- C4 amended witness: the field mapping at a concrete response with no
`country_code` key. -/
theorem missing_fields_null_except_country_code_witness :
    cacheLookup initState.cache (cache_key 1 2) = none ∧
    (0 : ℕ) < 3 ∧
    ((reverse_geocode initState (fun _ => NetAttempt.ok respNoCountryCode)
        1 2 3).result.state = respNoCountryCode.address.state ∧
     (reverse_geocode initState (fun _ => NetAttempt.ok respNoCountryCode)
        1 2 3).result.country_code = some "") := by
  obtain ⟨_, hstate, _, _, _, _, hcc, _⟩ :=
    missing_fields_null_except_country_code initState
      (fun _ => NetAttempt.ok respNoCountryCode) 1 2 3 respNoCountryCode
      rfl (by omega) rfl
  exact ⟨rfl, by omega, hstate, hcc rfl⟩

/-- C5: the extracted city is the value of the first present field in the
strict priority order city, town, village, municipality, hamlet; if none of
these fields is present the extracted city is null. -/
theorem city_extraction_priority (a : Address) :
    (a.city.isSome → _extract_city a = a.city) ∧
    (a.city = none → a.town.isSome → _extract_city a = a.town) ∧
    (a.city = none → a.town = none → a.village.isSome →
      _extract_city a = a.village) ∧
    (a.city = none → a.town = none → a.village = none →
      a.municipality.isSome → _extract_city a = a.municipality) ∧
    (a.city = none → a.town = none → a.village = none →
      a.municipality = none → a.hamlet.isSome → _extract_city a = a.hamlet) ∧
    (a.city = none → a.town = none → a.village = none →
      a.municipality = none → a.hamlet = none → _extract_city a = none) := by
  refine ⟨?_, ?_, ?_, ?_, ?_, ?_⟩ <;>
    · intros
      simp [_extract_city, findFirst, *]

/-- C5 witness: `town` beats `village` (Springfield over Shelbyville), and
the empty address yields null. -/
theorem city_extraction_priority_witness :
    addrTownVillage.city = none ∧ addrTownVillage.town.isSome ∧
    _extract_city addrTownVillage = some "Springfield" ∧
    _extract_city addrEmpty = none :=
  ⟨rfl, rfl, (city_extraction_priority addrTownVillage).2.1 rfl rfl,
   (city_extraction_priority addrEmpty).2.2.2.2.2 rfl rfl rfl rfl rfl⟩

lemma reverse_geocode_cacheInv (g : GeoState) (net : ℕ → NetAttempt)
    (lat lon : ℚ) (n : ℕ) (hg : cacheInv g.cache) :
    cacheInv (reverse_geocode g net lat lon n).st.cache := by
  cases h1 : cacheLookup g.cache (cache_key lat lon) with
  | some tmpl =>
      rw [reverse_geocode_hit g net lat lon n tmpl h1]
      exact hg
  | none =>
      cases ho : attemptLoop net n 0 none with
      | success resp tr =>
          rw [reverse_geocode_miss_success g net lat lon n resp tr h1 ho]
          intro kv hkv
          rcases mem_cacheInsert g.cache (cache_key lat lon)
            (buildResult lat lon resp) kv hkv with hkv1 | hkv1
          · rw [hkv1]; rfl
          · exact hg kv hkv1
      | exhausted le tr =>
          rw [reverse_geocode_miss_exhausted g net lat lon n le tr h1 ho]
          exact hg

lemma pg_loop_cacheInv (net : ℕ → ℕ → NetAttempt) (df : List InputRow)
    (total : ℕ) :
    ∀ rest : List InputRow, ∀ p : ℕ, ∀ g : GeoState,
      ∀ acc : List GeocodeResult, cacheInv g.cache →
      cacheInv (pg_loop net df total rest p g acc).st.cache := by
  intro rest
  induction rest with
  | nil => intro p g acc hg; exact hg
  | cons row rest ih =>
      intro p g acc hg
      exact ih (p + 1) _ _ (reverse_geocode_cacheInv g (net p) row.lat row.lon 3 hg)

lemma csv_loop_cacheInv (net : ℕ → ℕ → NetAttempt) :
    ∀ rest : List InputRow, ∀ idx : ℕ, ∀ g : GeoState,
      ∀ acc : List GeocodeResult, cacheInv g.cache →
      cacheInv (csv_loop net rest idx g acc).2.1.cache := by
  intro rest
  induction rest with
  | nil => intro idx g acc hg; exact hg
  | cons row rest ih =>
      intro idx g acc hg
      exact ih (idx + 1) _ _ (reverse_geocode_cacheInv g (net idx) row.lat row.lon 3 hg)

/-- C10: every operation preserves the invariant that all cached templates
have status `success`; `clear_cache` establishes it outright;
`get_cache_stats` is a pure read of the state; and on a cache hit the
cache itself is untouched while the caller receives a fresh copy of the
template with only latitude/longitude replaced (so the stored template's
place fields are never affected by what the caller does with the returned
result). -/
theorem cache_entries_always_success :
    (∀ g : GeoState, ∀ net : ℕ → NetAttempt, ∀ lat lon : ℚ, ∀ n : ℕ,
       cacheInv g.cache → cacheInv (reverse_geocode g net lat lon n).st.cache) ∧
    (∀ g : GeoState, cacheInv (clear_cache g).cache) ∧
    (∀ g : GeoState, get_cache_stats g =
       ⟨g.cache_hits, g.cache_misses, g.cache.length,
        g.cache_hits + g.cache_misses⟩) ∧
    (∀ g : GeoState, ∀ net : ℕ → ℕ → NetAttempt, ∀ df : List InputRow,
       cacheInv g.cache → cacheInv (process_csv g net df).st.cache) ∧
    (∀ g : GeoState, ∀ net : ℕ → ℕ → NetAttempt, ∀ df : List InputRow,
       cacheInv g.cache → cacheInv (process_geocoding g net df).st.cache) ∧
    (∀ g : GeoState, ∀ net : ℕ → NetAttempt, ∀ lat lon : ℚ, ∀ n : ℕ,
       ∀ tmpl : GeocodeResult,
       cacheLookup g.cache (cache_key lat lon) = some tmpl →
       (reverse_geocode g net lat lon n).st.cache = g.cache ∧
       (reverse_geocode g net lat lon n).result =
         { tmpl with latitude := lat, longitude := lon }) := by
  refine ⟨fun g net lat lon n hg => reverse_geocode_cacheInv g net lat lon n hg,
    fun g kv hkv => absurd hkv (List.not_mem_nil kv),
    fun g => rfl, ?_, ?_, ?_⟩
  · intro g net df hg
    exact csv_loop_cacheInv net df 0 g [] hg
  · intro g net df hg
    exact pg_loop_cacheInv net df df.length df 0 g [] hg
  · intro g net lat lon n tmpl h
    rw [reverse_geocode_hit g net lat lon n tmpl h]
    exact ⟨rfl, rfl⟩

/-- C10 witness: the invariant holds concretely after a successful call on
a fresh geocoder, and a hit on the resulting state leaves its cache
untouched. -/
theorem cache_entries_always_success_witness :
    cacheInv initState.cache ∧
    cacheInv (reverse_geocode initState netParis 1 2 3).st.cache ∧
    (reverse_geocode (reverse_geocode initState netParis 1 2 3).st netDown
        1 2 3).st.cache = (reverse_geocode initState netParis 1 2 3).st.cache := by
  have h0 : cacheInv initState.cache := fun kv hkv => absurd hkv (List.not_mem_nil kv)
  refine ⟨h0, cache_entries_always_success.1 initState netParis 1 2 3 h0, ?_⟩
  have hl : cacheLookup (reverse_geocode initState netParis 1 2 3).st.cache
      (cache_key 1 2) = some (buildResult 1 2 respParis) := by
    rw [reverse_geocode_miss_success initState netParis 1 2 3 respParis
      [Event.sleep 1, Event.request] rfl rfl]
    exact cacheLookup_cacheInsert_self initState.cache (cache_key 1 2)
      (buildResult 1 2 respParis)
  exact (cache_entries_always_success.2.2.2.2.2
    (reverse_geocode initState netParis 1 2 3).st netDown 1 2 3
    (buildResult 1 2 respParis) hl).1

lemma pg_loop_results_length (net : ℕ → ℕ → NetAttempt) (df : List InputRow)
    (total : ℕ) :
    ∀ rest : List InputRow, ∀ p : ℕ, ∀ g : GeoState,
      ∀ acc : List GeocodeResult,
      (pg_loop net df total rest p g acc).results.length =
        acc.length + rest.length := by
  intro rest
  induction rest with
  | nil => intro p g acc; simp [pg_loop]
  | cons row rest ih =>
      intro p g acc
      have h := ih (p + 1)
        (reverse_geocode g (net p) row.lat row.lon 3).st
        (acc ++ [(reverse_geocode g (net p) row.lat row.lon 3).result])
      simp only [pg_loop] at h ⊢
      simp at h
      simp [h]
      omega

lemma csv_loop_results_length (net : ℕ → ℕ → NetAttempt) :
    ∀ rest : List InputRow, ∀ idx : ℕ, ∀ g : GeoState,
      ∀ acc : List GeocodeResult,
      (csv_loop net rest idx g acc).1.length = acc.length + rest.length := by
  intro rest
  induction rest with
  | nil => intro idx g acc; simp [csv_loop]
  | cons row rest ih =>
      intro idx g acc
      have h := ih (idx + 1)
        (reverse_geocode g (net idx) row.lat row.lon 3).st
        (acc ++ [(reverse_geocode g (net idx) row.lat row.lon 3).result])
      simp only [csv_loop]
      simp at h
      simp [h]
      omega

lemma zip_getElem? {α β : Type} (l1 : List α) :
    ∀ l2 : List β, ∀ i : ℕ, ∀ x : α, ∀ y : β,
      l1[i]? = some x → l2[i]? = some y → (l1.zip l2)[i]? = some (x, y) := by
  induction l1 with
  | nil => intro l2 i x y h1; simp at h1
  | cons a t ih =>
      intro l2 i x y h1 h2
      cases l2 with
      | nil => simp at h2
      | cons b t2 =>
          cases i with
          | zero =>
              simp at h1 h2
              simp [List.zip_cons_cons, h1, h2]
          | succ j =>
              simp at h1 h2
              simpa [List.zip_cons_cons] using ih t2 j x y h1 h2

/-- C6: batch processing of N input rows yields exactly N output rows, in
input order, each output row carrying its input row's original columns plus
the result of geocoding that row's coordinates; this holds for every
network behavior, including ones on which some or all rows end in an error
status, because per-row failures are recorded in the result's status and
never abort the loop.  Stated for both `process_geocoding` (app.py) and
`process_csv` (geocoder.py). -/
theorem batch_preserves_rows (g : GeoState) (net : ℕ → ℕ → NetAttempt)
    (df : List InputRow) :
    (process_geocoding g net df).results.length = df.length ∧
    (process_geocoding g net df).output =
      df.zip ((process_geocoding g net df).results.map dropLatLon) ∧
    (process_geocoding g net df).output.length = df.length ∧
    (∀ i : ℕ, ∀ r : InputRow, ∀ s : GeocodeResult,
       df[i]? = some r → (process_geocoding g net df).results[i]? = some s →
       (process_geocoding g net df).output[i]? = some (r, dropLatLon s)) ∧
    (process_csv g net df).results.length = df.length ∧
    (process_csv g net df).output =
      df.zip ((process_csv g net df).results.map dropLatLon) ∧
    (process_csv g net df).output.length = df.length ∧
    (process_csv g net df).total_count = df.length ∧
    (∀ i : ℕ, ∀ r : InputRow, ∀ s : GeocodeResult,
       df[i]? = some r → (process_csv g net df).results[i]? = some s →
       (process_csv g net df).output[i]? = some (r, dropLatLon s)) := by
  have hlen1 : (process_geocoding g net df).results.length = df.length := by
    have := pg_loop_results_length net df df.length df 0 g []
    simpa [process_geocoding] using this
  have hout1 : (process_geocoding g net df).output =
      df.zip ((process_geocoding g net df).results.map dropLatLon) := rfl
  have hlen2 : (process_csv g net df).results.length = df.length := by
    have := csv_loop_results_length net df 0 g []
    simpa [process_csv] using this
  have hout2 : (process_csv g net df).output =
      df.zip ((process_csv g net df).results.map dropLatLon) := rfl
  refine ⟨hlen1, hout1, ?_, ?_, hlen2, hout2, ?_, rfl, ?_⟩
  · rw [hout1]
    simp [List.length_zip, hlen1]
  · intro i r s h1 h2
    rw [hout1]
    exact zip_getElem? df _ i r (dropLatLon s) h1 (by simp [h2])
  · rw [hout2]
    simp [List.length_zip, hlen2]
  · intro i r s h1 h2
    rw [hout2]
    exact zip_getElem? df _ i r (dropLatLon s) h1 (by simp [h2])

/-- C6 witness: a one-row batch over a dead network still yields one output
row, pairing the input row with its (error) result. -/
theorem batch_preserves_rows_witness :
    [rowOne][0]? = some rowOne ∧
    (process_geocoding initState netBatchDown [rowOne]).results[0]? =
      some (errorResult 1 2 (some "down")) ∧
    (process_geocoding initState netBatchDown [rowOne]).output.length = 1 ∧
    (process_geocoding initState netBatchDown [rowOne]).output[0]? =
      some (rowOne, dropLatLon (errorResult 1 2 (some "down"))) := by
  refine ⟨rfl, rfl, ?_, ?_⟩
  · exact (batch_preserves_rows initState netBatchDown [rowOne]).2.2.1
  · exact (batch_preserves_rows initState netBatchDown [rowOne]).2.2.2.1 0
      rowOne (errorResult 1 2 (some "down")) rfl rfl

lemma getLast?_mem_list {α : Type} (l : List α) (a : α)
    (h : l.getLast? = some a) : a ∈ l := by
  have hm : a ∈ l.getLast? := by rw [h]; rfl
  obtain ⟨hne, rfl⟩ := List.mem_getLast?_eq_getLast hm
  exact List.getLast_mem hne

/-- C7: the latitude/longitude column lookup of the app compares names
case-insensitively but otherwise exactly (the resolved column is a real
column whose lowercasing equals the query's lowercasing, and the lookup
depends only on the query's lowercasing); and when either column cannot be
resolved the flow stops with the validation error that lists the available
column names, performing no geocoding: no event is emitted and the
geocoder state is untouched. -/
theorem column_lookup_validation :
    (∀ cols : List String, ∀ name1 name2 : String,
       pyLower name1 = pyLower name2 →
       find_column cols name1 = find_column cols name2) ∧
    (∀ cols : List String, ∀ name c : String,
       find_column cols name = some c → c ∈ cols ∧ pyLower c = pyLower name) ∧
    (∀ g : GeoState, ∀ net : ℕ → ℕ → NetAttempt, ∀ f : Frame,
       ∀ latName lonName : String,
       (find_column f.columns latName = none ∨
        find_column f.columns lonName = none) →
       main_flow g net f latName lonName =
         ⟨some (columnsError latName lonName f.columns), none, g, []⟩) := by
  refine ⟨?_, ?_, ?_⟩
  · intro cols name1 name2 h
    simp only [find_column, h]
  · intro cols name c h
    have hc : c ∈ cols.filter (fun col => pyLower col = pyLower name) :=
      getLast?_mem_list _ c h
    have := List.mem_filter.mp hc
    exact ⟨this.1, of_decide_eq_true this.2⟩
  · intro g net f latName lonName h
    rcases hla : find_column f.columns latName with _ | cla <;>
      rcases hlo : find_column f.columns lonName with _ | clo <;>
        simp_all [main_flow]

/-- C7 witness: a frame without resolvable latitude/longitude columns
produces the terminal validation error with no events, and lookup is
case-insensitive yet exact on a concrete frame. -/
theorem column_lookup_validation_witness :
    pyLower "LATITUDE" = pyLower "latitude" ∧
    find_column ["Latitude", "Longitude"] "LATITUDE" =
      find_column ["Latitude", "Longitude"] "latitude" ∧
    find_column ["lat", "lon"] "latitude" = none ∧
    main_flow initState netBatchDown ⟨["lat", "lon"], [rowOne]⟩
        "latitude" "longitude" =
      ⟨some (columnsError "latitude" "longitude" ["lat", "lon"]), none,
       initState, []⟩ := by
  refine ⟨rfl, ?_, rfl, ?_⟩
  · exact column_lookup_validation.1 ["Latitude", "Longitude"]
      "LATITUDE" "latitude" rfl
  · exact column_lookup_validation.2.2 initState netBatchDown
      ⟨["lat", "lon"], [rowOne]⟩ "latitude" "longitude" (Or.inl rfl)

lemma pg_loop_cons (net : ℕ → ℕ → NetAttempt) (df : List InputRow)
    (total : ℕ) (row : InputRow) (rest : List InputRow) (p : ℕ)
    (g : GeoState) (acc : List GeocodeResult) :
    pg_loop net df total (row :: rest) p g acc =
      ⟨(pg_loop net df total rest (p + 1)
          (reverse_geocode g (net p) row.lat row.lon 3).st
          (acc ++ [(reverse_geocode g (net p) row.lat row.lon 3).result])).results,
       (pg_loop net df total rest (p + 1)
          (reverse_geocode g (net p) row.lat row.lon 3).st
          (acc ++ [(reverse_geocode g (net p) row.lat row.lon 3).result])).st,
       (reverse_geocode g (net p) row.lat row.lon 3).events ++
         (pg_loop net df total rest (p + 1)
            (reverse_geocode g (net p) row.lat row.lon 3).st
            (acc ++ [(reverse_geocode g (net p) row.lat row.lon 3).result])).events,
       (if (p + 1) % 50 = 0 ∨ (p + 1) = total then
          [⟨p + 1, snapshot_table df
              (acc ++ [(reverse_geocode g (net p) row.lat row.lon 3).result])
              (p + 1)⟩]
        else []) ++
         (pg_loop net df total rest (p + 1)
            (reverse_geocode g (net p) row.lat row.lon 3).st
            (acc ++ [(reverse_geocode g (net p) row.lat row.lon 3).result])).snaps⟩ :=
  rfl

lemma pg_loop_snaps_spec (net : ℕ → ℕ → NetAttempt) (df : List InputRow)
    (total : ℕ) :
    ∀ rest : List InputRow, ∀ p : ℕ, ∀ g : GeoState,
      ∀ acc : List GeocodeResult, acc.length = p →
      (pg_loop net df total rest p g acc).results.take p = acc ∧
      (∀ s ∈ (pg_loop net df total rest p g acc).snaps,
        (s.processed % 50 = 0 ∨ s.processed = total) ∧
        p < s.processed ∧ s.processed ≤ p + rest.length ∧
        s.table = (df.take s.processed).zip
          (((pg_loop net df total rest p g acc).results.take s.processed).map
            dropLatLon)) ∧
      (∀ q : ℕ, p < q → q ≤ p + rest.length → (q % 50 = 0 ∨ q = total) →
        ∃ s ∈ (pg_loop net df total rest p g acc).snaps, s.processed = q) := by
  intro rest
  induction rest with
  | nil =>
      intro p g acc hlen
      refine ⟨?_, ?_, ?_⟩
      · rw [show (pg_loop net df total [] p g acc).results = acc from rfl,
          ← hlen, List.take_length]
      · intro s hs
        exact absurd hs (List.not_mem_nil s)
      · intro q h1 h2 h3
        simp only [List.length_nil] at h2
        omega
  | cons row rest ih =>
      intro p g acc hlen
      obtain ⟨ihtake, ihsnaps, ihcompl⟩ := ih (p + 1)
        (reverse_geocode g (net p) row.lat row.lon 3).st
        (acc ++ [(reverse_geocode g (net p) row.lat row.lon 3).result])
        (by simp [hlen])
      refine ⟨?_, ?_, ?_⟩
      · rw [pg_loop_cons]
        calc (pg_loop net df total rest (p + 1)
                (reverse_geocode g (net p) row.lat row.lon 3).st
                (acc ++ [(reverse_geocode g (net p) row.lat row.lon 3).result])).results.take p
            = ((pg_loop net df total rest (p + 1)
                (reverse_geocode g (net p) row.lat row.lon 3).st
                (acc ++ [(reverse_geocode g (net p) row.lat row.lon 3).result])).results.take
                  (p + 1)).take p := by
              rw [List.take_take]
              congr 1
              omega
          _ = (acc ++ [(reverse_geocode g (net p) row.lat row.lon 3).result]).take p := by
              rw [ihtake]
          _ = acc := by
              rw [← hlen]
              exact List.take_left acc _
      · intro s hs
        rw [pg_loop_cons] at hs ⊢
        simp only [List.mem_append] at hs
        rcases hs with hs1 | hs1
        · by_cases hcond : (p + 1) % 50 = 0 ∨ (p + 1) = total
          · rw [if_pos hcond] at hs1
            simp only [List.mem_singleton] at hs1
            subst hs1
            refine ⟨hcond, show p < p + 1 by omega,
              show p + 1 ≤ p + (row :: rest).length by simp, ?_⟩
            show snapshot_table df
              (acc ++ [(reverse_geocode g (net p) row.lat row.lon 3).result]) (p + 1) = _
            rw [snapshot_table, ihtake]
          · rw [if_neg hcond] at hs1
            exact absurd hs1 (List.not_mem_nil s)
        · obtain ⟨hc, hlt, hle, htab⟩ := ihsnaps s hs1
          refine ⟨hc, by omega, by simp; omega, htab⟩
      · intro q h1 h2 h3
        rw [pg_loop_cons]
        by_cases hq : q = p + 1
        · subst hq
          rw [if_pos h3]
          exact ⟨⟨p + 1, snapshot_table df
              (acc ++ [(reverse_geocode g (net p) row.lat row.lon 3).result])
              (p + 1)⟩,
            List.mem_append_left _ (List.mem_singleton_self _), rfl⟩
        · have hlt : p + 1 < q := by omega
          have hle : q ≤ (p + 1) + rest.length := by
            simp at h2
            omega
          obtain ⟨s, hs, hsp⟩ := ihcompl q hlt hle h3
          exact ⟨s, List.mem_append_right _ hs, hsp⟩

/-- C8: during a batch run, the partial output file is written exactly after
every 50th processed row and after the final row, each write overwriting
the previous one (the last write is the full final output); every written
snapshot at `processed = p` contains exactly the first `p` input rows
joined, in input order, with the first `p` results' place fields (the
duplicate latitude/longitude columns dropped), so it has exactly `p` data
rows. -/
theorem snapshot_every_fifty_rows (g : GeoState) (net : ℕ → ℕ → NetAttempt)
    (df : List InputRow) :
    (∀ s ∈ (process_geocoding g net df).snaps,
       (s.processed % 50 = 0 ∨ s.processed = df.length) ∧
       s.processed ≤ df.length ∧
       s.table = (df.take s.processed).zip
         (((process_geocoding g net df).results.take s.processed).map
           dropLatLon) ∧
       s.table.length = s.processed) ∧
    (∀ q : ℕ, 0 < q → q ≤ df.length → (q % 50 = 0 ∨ q = df.length) →
       ∃ s ∈ (process_geocoding g net df).snaps, s.processed = q) ∧
    (process_geocoding g net df).snaps.getLast? =
      some ⟨df.length, (process_geocoding g net df).output⟩ := by
  obtain ⟨htake, hsnaps, hcompl⟩ :=
    pg_loop_snaps_spec net df df.length df 0 g [] rfl
  have hreslen : (pg_loop net df df.length df 0 g []).results.length = df.length := by
    simpa using pg_loop_results_length net df df.length df 0 g []
  have hsnapseq : (process_geocoding g net df).snaps =
      (pg_loop net df df.length df 0 g []).snaps ++
        [⟨df.length, (process_geocoding g net df).output⟩] := rfl
  have hresults : (process_geocoding g net df).results =
      (pg_loop net df df.length df 0 g []).results := rfl
  refine ⟨?_, ?_, ?_⟩
  · intro s hs
    rw [hsnapseq] at hs
    rcases List.mem_append.mp hs with hs1 | hs1
    · obtain ⟨hc, hlt, hle, htab⟩ := hsnaps s hs1
      have hle2 : s.processed ≤ df.length := by omega
      refine ⟨hc, hle2, by rw [hresults]; exact htab, ?_⟩
      rw [htab]
      simp [List.length_zip, List.length_take, hreslen]
      omega
    · simp only [List.mem_singleton] at hs1
      subst hs1
      refine ⟨Or.inr rfl, le_refl _, ?_, ?_⟩
      · show (process_geocoding g net df).output = _
        rw [hresults]
        have h1 : df.take df.length = df := List.take_length df
        have h2 : (pg_loop net df df.length df 0 g []).results.take df.length =
            (pg_loop net df df.length df 0 g []).results :=
          List.take_of_length_le (le_of_eq hreslen)
        show df.zip ((pg_loop net df df.length df 0 g []).results.map dropLatLon) = _
        rw [h1, h2]
      · show (process_geocoding g net df).output.length = df.length
        show (df.zip ((pg_loop net df df.length df 0 g []).results.map
          dropLatLon)).length = df.length
        simp [List.length_zip, hreslen]
  · intro q h1 h2 h3
    obtain ⟨s, hs, hsp⟩ := hcompl q h1 (by omega) h3
    exact ⟨s, by rw [hsnapseq]; exact List.mem_append_left _ hs, hsp⟩
  · rw [hsnapseq]
    exact List.getLast?_concat _

/-- C8 witness: on a concrete three-row batch the snapshot after the final
row exists and the last persisted file is the full output. -/
theorem snapshot_every_fifty_rows_witness :
    (∃ s ∈ (process_geocoding initState netBatchDown
        [rowOne, rowOne, rowOne]).snaps, s.processed = 3) ∧
    (process_geocoding initState netBatchDown
        [rowOne, rowOne, rowOne]).snaps.getLast? =
      some ⟨3, (process_geocoding initState netBatchDown
        [rowOne, rowOne, rowOne]).output⟩ := by
  refine ⟨?_, ?_⟩
  · exact (snapshot_every_fifty_rows initState netBatchDown
      [rowOne, rowOne, rowOne]).2.1 3 (by omega) (by simp) (Or.inr (by simp))
  · exact (snapshot_every_fifty_rows initState netBatchDown
      [rowOne, rowOne, rowOne]).2.2

end GeoConverter
